import Mathlib

/-!
Verification of the concurrency core of `cargo-leptos` (`src/util.rs`):
the event-waiter loop `oneshot_when`, the process supervisor
`run_interruptible`, and the build-output collector `spawn_cargo_parsed`.

The stateful tokio code is shallowly embedded: each background loop
becomes a structurally recursive function over the finite list of values
it receives before (possibly) terminating, and the `tokio::select!` race
in `run_interruptible` is resolved by whichever side completed first,
which the scenario function computes from the waiter loop state.
-/

/-- Modelled from the spec: the event type `Msg` is declared outside
`src/` (only `SrcChanged` and `ShutDown` are named in `util.rs`); the
spec states that additional kinds may exist and are opaque to these
components, which `Other` represents. -/
inductive Msg : Type
  | SrcChanged : Msg
  | ShutDown : Msg
  | Other : Nat → Msg
deriving DecidableEq, Repr

/-- One outcome of `Receiver::recv` on the broadcast bus inside
`oneshot_when`: a delivered message, a lag indication, or a closed
indication.  The Rust code matches the latter two with one `Err(e)` arm. -/
inductive RecvResult : Type
  | ok : Msg → RecvResult
  | lagged : RecvResult
  | closed : RecvResult
deriving DecidableEq, Repr

/-- State of the one-shot pair created by `oneshot_when`, as seen by the
waiter end: still waiting, fired (`tx.send` was executed), or discarded
(the loop ended and dropped `tx` without sending). -/
inductive WaiterState : Type
  | waiting : WaiterState
  | fired : WaiterState
  | discarded : WaiterState
deriving DecidableEq, Repr

/-- The background loop of `oneshot_when` (util.rs:209-226), run over the
finite list of recv results it has processed so far.  Match arms in
source order: `Ok(Msg::ShutDown)` breaks (dropping `tx` unsent) even when
`ShutDown` is in `msgs`; `Ok(msg)` with `msgs.contains(&msg)` sends and
returns; `Err(e)` (lag or closed) returns without sending; any other
`Ok(_)` continues.  An exhausted list means the loop is still suspended
in `recv`. -/
def oneshotLoop (msgs : List Msg) : List RecvResult → WaiterState
  | [] => .waiting
  | .ok .ShutDown :: _ => .discarded
  | .ok m :: rest =>
      if m ∈ msgs then .fired else oneshotLoop msgs rest
  | .lagged :: _ => .discarded
  | .closed :: _ => .discarded

/-- Exit status of the child, as consumed by the code: only
`ExitStatus::success()` is inspected. -/
structure ExitStatus : Type where
  success : Bool
deriving DecidableEq, Repr

/-- Outcome of `Child::kill` in the interrupted branch. -/
inductive KillResult : Type
  | ok : KillResult
  | failed : KillResult
deriving DecidableEq, Repr

/-- Which side of the `tokio::select!` in `run_interruptible` resolved
first: `process.wait()` (with its `io::Result<ExitStatus>`, the error
modelled as a `String`), or the `stop_rx` future (which completes both
when the setter fired and when it was discarded). -/
inductive RaceOutcome : Type
  | childExited : Except String ExitStatus → RaceOutcome
  | waiterResolved : RaceOutcome
deriving Repr

/-- Result of `run_interruptible`: `Ok(())`, `Err(..)` with the message
of the anyhow error, or a panic (the `.expect` on a failed kill). -/
inductive RunResult : Type
  | ok : RunResult
  | err : String → RunResult
  | panicked : String → RunResult
deriving DecidableEq, Repr

/-- What `run_interruptible` did: its returned result and whether
`process.kill()` was attempted. -/
structure RunOutcome : Type where
  result : RunResult
  killAttempted : Bool
deriving DecidableEq, Repr

/-- The body of `run_interruptible` (util.rs:236-246) after the race is
resolved.  Child-exit branch: `res?` propagates a wait error, otherwise
`success()` selects `Ok(())` or `Err(anyhow!("{} failed", name))`.
Stop branch: `process.kill().await.map(|_| true).expect("Could not kill
process")`, then `Ok(())`. -/
def run_interruptible (name : String) (race : RaceOutcome)
    (kill : KillResult) : RunOutcome :=
  match race with
  | .childExited (.error e) => ⟨.err e, false⟩
  | .childExited (.ok st) =>
      if st.success then ⟨.ok, false⟩
      else ⟨.err (name ++ " failed"), false⟩
  | .waiterResolved =>
      match kill with
      | .ok => ⟨.ok, true⟩
      | .failed => ⟨.panicked "Could not kill process", true⟩

/-- The target set `run_interruptible` passes to `oneshot_when`
(util.rs:233): `&[Msg::SrcChanged, Msg::ShutDown]`. -/
def runMsgs : List Msg := [Msg.SrcChanged, Msg.ShutDown]

/-- `run_interruptible` composed with its event waiter.  `preExit` is
the list of recv results the waiter loop processed strictly before the
child exit became available; if the waiter resolved on them (fired or
discarded), `stop_rx` completed first and the select takes the stop
branch, otherwise the child-exit branch runs with `childRes`. -/
def runInterruptibleScenario (name : String) (preExit : List RecvResult)
    (childRes : Except String ExitStatus) (kill : KillResult) : RunOutcome :=
  match oneshotLoop runMsgs preExit with
  | .waiting => run_interruptible name (.childExited childRes) kill
  | _ => run_interruptible name .waiterResolved kill

/-- A recv result that leaves the `oneshot_when` loop running: a
delivered message that is neither in the target set nor `ShutDown`. -/
def nonMatching (msgs : List Msg) : RecvResult → Prop
  | .ok m => m ∉ msgs ∧ m ≠ Msg.ShutDown
  | .lagged => False
  | .closed => False

instance (msgs : List Msg) (r : RecvResult) : Decidable (nonMatching msgs r) := by
  cases r with
  | ok m => exact inferInstanceAs (Decidable (m ∉ msgs ∧ m ≠ Msg.ShutDown))
  | lagged => exact inferInstanceAs (Decidable False)
  | closed => exact inferInstanceAs (Decidable False)

/-- If the loop is still waiting after `pre`, processing `pre ++ rest`
is the same as processing `rest`. -/
theorem oneshotLoop_append_of_waiting (msgs : List Msg)
    (pre rest : List RecvResult) (h : oneshotLoop msgs pre = .waiting) :
    oneshotLoop msgs (pre ++ rest) = oneshotLoop msgs rest := by
  induction pre with
  | nil => rfl
  | cons r pre ih =>
      cases r with
      | ok m =>
          cases m with
          | SrcChanged =>
              by_cases hm : Msg.SrcChanged ∈ msgs
              · simp [oneshotLoop, hm] at h
              · simp [oneshotLoop, hm] at h ⊢
                exact ih h
          | ShutDown => simp [oneshotLoop] at h
          | Other k =>
              by_cases hm : Msg.Other k ∈ msgs
              · simp [oneshotLoop, hm] at h
              · simp [oneshotLoop, hm] at h ⊢
                exact ih h
      | lagged => simp [oneshotLoop] at h
      | closed => simp [oneshotLoop] at h

/-- If `Ok(SrcChanged)` is among the processed recv results, the
`runMsgs`-scoped loop has resolved (it is no longer waiting). -/
theorem oneshotLoop_resolved_of_srcChanged (events : List RecvResult)
    (h : RecvResult.ok Msg.SrcChanged ∈ events) :
    oneshotLoop runMsgs events ≠ .waiting := by
  induction events with
  | nil => simp at h
  | cons r rest ih =>
      cases r with
      | ok m =>
          cases m with
          | SrcChanged => simp [oneshotLoop, runMsgs]
          | ShutDown => simp [oneshotLoop]
          | Other k =>
              have hm : Msg.Other k ∉ runMsgs := by simp [runMsgs]
              simp [oneshotLoop, hm]
              apply ih
              simpa using h
      | lagged => simp [oneshotLoop]
      | closed => simp [oneshotLoop]

/-- One `cargo_metadata::Message` successfully deserialized from a line
of cargo output (util.rs:172-187).  `unknownMessage` is the `Ok(_)`
catch-all arm for variants the match does not name. -/
inductive CargoMsg (A : Type) : Type
  | buildFinished : Bool → CargoMsg A
  | buildScriptExecuted : CargoMsg A
  | compilerArtifact : A → CargoMsg A
  | compilerMessage : CargoMsg A
  | textLine : CargoMsg A
  | unknownMessage : CargoMsg A
deriving DecidableEq, Repr

/-- Outcome of deserializing one line: a message, or the `Err(e)` arm.
An empty read (stream closed) leaves `line` empty, and deserializing the
empty line lands in this same `Err` arm. -/
inductive ParseResult (A : Type) : Type
  | ok : CargoMsg A → ParseResult A
  | err : ParseResult A
deriving DecidableEq, Repr

/-- Outcome of one `read_line` call in the collector loop: an `Ok` read
carrying the parse outcome of the line, or an `Err` read. -/
inductive ReadResult (A : Type) : Type
  | ok : ParseResult A → ReadResult A
  | err : ReadResult A
deriving DecidableEq, Repr

/-- Result of the collector loop over the read results consumed so far:
`done` means the loop hit a `break` and the task returns the listed
artifacts; `pending` means the list was exhausted while the loop is
still suspended in `read_line`. -/
inductive CollectOutcome (A : Type) : Type
  | done : List A → CollectOutcome A
  | pending : List A → CollectOutcome A
deriving DecidableEq, Repr

/-- The background task of `spawn_cargo_parsed` (util.rs:164-198), over
the finite list of read results it consumes.  Arms in source order:
`BuildFinished` breaks (warning first if not success);
`BuildScriptExecuted` continues; `CompilerArtifact` pushes; the message,
text and unknown arms log and continue; a deserialize `Err` breaks; a
read `Err` breaks. -/
def collectLoop {A : Type} : List (ReadResult A) → List A → CollectOutcome A
  | [], acc => .pending acc
  | .ok (.ok (.buildFinished _)) :: _, acc => .done acc
  | .ok (.ok .buildScriptExecuted) :: rest, acc => collectLoop rest acc
  | .ok (.ok (.compilerArtifact a)) :: rest, acc => collectLoop rest (acc ++ [a])
  | .ok (.ok .compilerMessage) :: rest, acc => collectLoop rest acc
  | .ok (.ok .textLine) :: rest, acc => collectLoop rest acc
  | .ok (.ok .unknownMessage) :: rest, acc => collectLoop rest acc
  | .ok .err :: _, acc => .done acc
  | .err :: _, acc => .done acc

/-- A read result that keeps the collector loop running (everything
except a terminal `BuildFinished`, a parse error and a read error). -/
def continuing {A : Type} : ReadResult A → Bool
  | .ok (.ok (.buildFinished _)) => false
  | .ok .err => false
  | .err => false
  | _ => true

/-- The artifacts a list of read results would contribute, in arrival
order with duplicates retained. -/
def artifactsOf {A : Type} (rs : List (ReadResult A)) : List A :=
  rs.filterMap fun r =>
    match r with
    | .ok (.ok (.compilerArtifact a)) => some a
    | _ => none

/-- Over a run of continuing reads, the loop just accumulates their
artifacts and goes on. -/
theorem collectLoop_append_of_continuing {A : Type}
    (pre rest : List (ReadResult A)) (acc : List A)
    (h : ∀ r ∈ pre, continuing r = true) :
    collectLoop (pre ++ rest) acc = collectLoop rest (acc ++ artifactsOf pre) := by
  induction pre generalizing acc with
  | nil => simp [artifactsOf]
  | cons r pre ih =>
      have hr : continuing r = true := h r (by simp)
      have hpre : ∀ x ∈ pre, continuing x = true := fun x hx => h x (by simp [hx])
      cases r with
      | ok p =>
          cases p with
          | ok m =>
              cases m with
              | buildFinished s => simp [continuing] at hr
              | buildScriptExecuted =>
                  simpa [collectLoop, artifactsOf] using ih acc hpre
              | compilerArtifact a =>
                  have := ih (acc ++ [a]) hpre
                  simpa [collectLoop, artifactsOf, List.append_assoc] using this
              | compilerMessage =>
                  simpa [collectLoop, artifactsOf] using ih acc hpre
              | textLine =>
                  simpa [collectLoop, artifactsOf] using ih acc hpre
              | unknownMessage =>
                  simpa [collectLoop, artifactsOf] using ih acc hpre
          | err => simp [continuing] at hr
      | err => simp [continuing] at hr

/-- Stdout configuration of the command; `spawn_cargo_parsed` sets
`Stdio::piped()` (util.rs:158) before spawning. -/
inductive StdioCfg : Type
  | piped : StdioCfg
  | inherited : StdioCfg
deriving DecidableEq, Repr

/-- The child process handle as `spawn_cargo_parsed` uses it: only the
`stdout` option is consumed (by `.take().unwrap()`). -/
structure ChildModel : Type where
  stdout : Option Unit
deriving DecidableEq, Repr

/-- Model of `tokio::process::Command::spawn` for the fields this code
touches: when spawning succeeds, the child carries a captured stdout
handle exactly when stdout was configured as piped. -/
def spawnChild (cfg : StdioCfg) (spawnOk : Bool) : Option ChildModel :=
  if spawnOk then
    some ⟨match cfg with | .piped => some () | .inherited => none⟩
  else none

/-- Result of `spawn_cargo_parsed`: the spawn `Err` propagated by `?`, a
panic of the `unwrap` on the taken stdout, or the pair of the collector
task and the child handle. -/
inductive SpawnCargoResult (A : Type) : Type
  | spawnErr : SpawnCargoResult A
  | panicked : SpawnCargoResult A
  | ok : CollectOutcome A → ChildModel → SpawnCargoResult A
deriving DecidableEq, Repr

/-- `spawn_cargo_parsed` (util.rs:156-199): configures piped stdout,
spawns (propagating failure with `?`), takes and unwraps the stdout
handle, and starts the collector task over the stream. -/
def spawn_cargo_parsed {A : Type} (spawnOk : Bool)
    (stream : List (ReadResult A)) : SpawnCargoResult A :=
  match spawnChild StdioCfg.piped spawnOk with
  | none => .spawnErr
  | some child =>
      match child.stdout with
      | none => .panicked
      | some _ => .ok (collectLoop stream []) { child with stdout := none }

/-- C1: if a SourceChanged event is delivered to the waiter strictly
before the child process exits, `run_interruptible` forcibly kills the
child (kill is attempted) and returns success, regardless of the exit
result the child would otherwise have produced. -/
theorem src_changed_before_exit_kills_and_returns_ok (name : String)
    (preExit : List RecvResult) (childRes : Except String ExitStatus)
    (h : RecvResult.ok Msg.SrcChanged ∈ preExit) :
    runInterruptibleScenario name preExit childRes KillResult.ok =
      ⟨RunResult.ok, true⟩ := by
  have hres := oneshotLoop_resolved_of_srcChanged preExit h
  unfold runInterruptibleScenario
  cases hst : oneshotLoop runMsgs preExit with
  | waiting => exact absurd hst hres
  | fired => rfl
  | discarded => rfl

/-- Witness for C1, with a child that would have exited unsuccessfully. -/
theorem src_changed_before_exit_kills_and_returns_ok_witness :
    runInterruptibleScenario "serve"
      [RecvResult.ok (Msg.Other 3), RecvResult.ok Msg.SrcChanged]
      (Except.ok ⟨false⟩) KillResult.ok = ⟨RunResult.ok, true⟩ :=
  src_changed_before_exit_kills_and_returns_ok "serve" _ _ (by decide)

/-- C2: on `ShutDown` the waiter loop ends discarding the setter without
firing it (outcome `discarded`, not `fired`), even though `ShutDown` is
in the target set; the runner treats that outcome like `fired`, kills
the child and returns success. -/
theorem shutdown_discards_setter_and_runner_still_kills (name : String)
    (pre post : List RecvResult) (childRes : Except String ExitStatus)
    (h : oneshotLoop runMsgs pre = .waiting) :
    oneshotLoop runMsgs (pre ++ RecvResult.ok Msg.ShutDown :: post) =
        .discarded ∧
    Msg.ShutDown ∈ runMsgs ∧
    runInterruptibleScenario name (pre ++ RecvResult.ok Msg.ShutDown :: post)
        childRes KillResult.ok = ⟨RunResult.ok, true⟩ := by
  have h1 : oneshotLoop runMsgs (pre ++ RecvResult.ok Msg.ShutDown :: post) =
      .discarded := by
    rw [oneshotLoop_append_of_waiting runMsgs pre _ h]
    rfl
  refine ⟨h1, by simp [runMsgs], ?_⟩
  unfold runInterruptibleScenario
  rw [h1]
  rfl

/-- Witness for C2. -/
theorem shutdown_discards_setter_and_runner_still_kills_witness :
    oneshotLoop runMsgs
        [RecvResult.ok (Msg.Other 0), RecvResult.ok Msg.ShutDown] =
      .discarded ∧
    Msg.ShutDown ∈ runMsgs ∧
    runInterruptibleScenario "serve"
        [RecvResult.ok (Msg.Other 0), RecvResult.ok Msg.ShutDown]
        (Except.ok ⟨true⟩) KillResult.ok = ⟨RunResult.ok, true⟩ :=
  shutdown_discards_setter_and_runner_still_kills "serve"
    [RecvResult.ok (Msg.Other 0)] [] (Except.ok ⟨true⟩) (by decide)

/-- C3: if the child exits on its own while the waiter is still waiting,
the result is success for a successful exit status and an error naming
the label otherwise, and no kill is attempted in either case. -/
theorem child_exit_before_waiter_resolves (name : String)
    (events : List RecvResult) (st : ExitStatus) (kill : KillResult)
    (h : oneshotLoop runMsgs events = .waiting) :
    runInterruptibleScenario name events (Except.ok st) kill =
      if st.success then ⟨RunResult.ok, false⟩
      else ⟨RunResult.err (name ++ " failed"), false⟩ := by
  unfold runInterruptibleScenario
  rw [h]
  rfl

/-- Witness for C3, covering both exit statuses. -/
theorem child_exit_before_waiter_resolves_witness :
    runInterruptibleScenario "serve" [] (Except.ok ⟨true⟩) KillResult.ok =
      ⟨RunResult.ok, false⟩ ∧
    runInterruptibleScenario "serve" [] (Except.ok ⟨false⟩) KillResult.ok =
      ⟨RunResult.err "serve failed", false⟩ := by
  constructor
  · simpa using child_exit_before_waiter_resolves "serve" [] ⟨true⟩
      KillResult.ok rfl
  · simpa using child_exit_before_waiter_resolves "serve" [] ⟨false⟩
      KillResult.ok rfl

/-- C6: a waiter scoped to any target set stays waiting across
arbitrarily many delivered events whose kind is neither in the target
set nor `ShutDown`. -/
theorem waiter_ignores_non_matching_events (msgs : List Msg)
    (events : List RecvResult) (h : ∀ r ∈ events, nonMatching msgs r) :
    oneshotLoop msgs events = .waiting := by
  induction events with
  | nil => rfl
  | cons r rest ih =>
      have hr := h r (by simp)
      have hrest : ∀ x ∈ rest, nonMatching msgs x :=
        fun x hx => h x (by simp [hx])
      cases r with
      | ok m =>
          obtain ⟨hmem, hne⟩ := hr
          cases m with
          | ShutDown => exact absurd rfl hne
          | SrcChanged =>
              rw [show oneshotLoop msgs (RecvResult.ok Msg.SrcChanged :: rest) =
                if Msg.SrcChanged ∈ msgs then WaiterState.fired
                else oneshotLoop msgs rest from rfl]
              rw [if_neg hmem]
              exact ih hrest
          | Other k =>
              rw [show oneshotLoop msgs (RecvResult.ok (Msg.Other k) :: rest) =
                if Msg.Other k ∈ msgs then WaiterState.fired
                else oneshotLoop msgs rest from rfl]
              rw [if_neg hmem]
              exact ih hrest
      | lagged => exact hr.elim
      | closed => exact hr.elim

/-- Witness for C6: a `{SrcChanged}`-scoped waiter across several
unrelated events. -/
theorem waiter_ignores_non_matching_events_witness :
    oneshotLoop [Msg.SrcChanged]
      [RecvResult.ok (Msg.Other 0), RecvResult.ok (Msg.Other 1),
       RecvResult.ok (Msg.Other 0), RecvResult.ok (Msg.Other 7)] =
      .waiting :=
  waiter_ignores_non_matching_events [Msg.SrcChanged] _ (by decide)

/-- C7: a lag or closed indication ends the waiter loop without firing,
with the same `discarded` outcome as shutdown; the loop has no error
outcome, so nothing is surfaced to the caller. -/
theorem lag_or_closed_ends_wait_silently (msgs : List Msg)
    (pre postL postC postS : List RecvResult)
    (h : oneshotLoop msgs pre = .waiting) :
    oneshotLoop msgs (pre ++ RecvResult.lagged :: postL) = .discarded ∧
    oneshotLoop msgs (pre ++ RecvResult.closed :: postC) = .discarded ∧
    oneshotLoop msgs (pre ++ RecvResult.ok Msg.ShutDown :: postS) =
      .discarded := by
  refine ⟨?_, ?_, ?_⟩ <;>
    rw [oneshotLoop_append_of_waiting msgs pre _ h] <;> rfl

/-- Witness for C7. -/
theorem lag_or_closed_ends_wait_silently_witness :
    oneshotLoop [Msg.SrcChanged]
      [RecvResult.ok (Msg.Other 2), RecvResult.lagged] = .discarded ∧
    oneshotLoop [Msg.SrcChanged]
      [RecvResult.ok (Msg.Other 2), RecvResult.closed] = .discarded ∧
    oneshotLoop [Msg.SrcChanged]
      [RecvResult.ok (Msg.Other 2), RecvResult.ok Msg.ShutDown] =
      .discarded :=
  lag_or_closed_ends_wait_silently [Msg.SrcChanged]
    [RecvResult.ok (Msg.Other 2)] [] [] [] (by decide)

/-- C8: a failed kill after the waiter resolved makes `run_interruptible`
panic (the `.expect`), which is not an error result: the condition is
unrecoverable, with no retry or escalation path in the code. -/
theorem kill_failure_panics_not_recoverable (name : String) :
    run_interruptible name RaceOutcome.waiterResolved KillResult.failed =
      ⟨RunResult.panicked "Could not kill process", true⟩ ∧
    ∀ s, (run_interruptible name RaceOutcome.waiterResolved
        KillResult.failed).result ≠ RunResult.err s := by
  refine ⟨rfl, fun s => ?_⟩
  simp [run_interruptible]

/-- C9: if `process.wait()` itself fails with an OS error while the
waiter is still waiting, the error is propagated by `res?` — no kill is
attempted and the result is neither success nor the label-naming
failure: a fourth outcome. -/
theorem wait_error_is_propagated (name : String) (events : List RecvResult)
    (e : String) (kill : KillResult)
    (h : oneshotLoop runMsgs events = .waiting) :
    runInterruptibleScenario name events (Except.error e) kill =
      ⟨RunResult.err e, false⟩ := by
  unfold runInterruptibleScenario
  rw [h]
  rfl

/-- Witness for C9. -/
theorem wait_error_is_propagated_witness :
    runInterruptibleScenario "serve" [RecvResult.ok (Msg.Other 1)]
      (Except.error "ECHILD") KillResult.failed =
      ⟨RunResult.err "ECHILD", false⟩ :=
  wait_error_is_propagated "serve" [RecvResult.ok (Msg.Other 1)] "ECHILD"
    KillResult.failed (by decide)

/-- C4: the collector returns exactly the artifacts that appear strictly
before the first `BuildFinished`, in arrival order with duplicates
retained; everything after the first `BuildFinished` is ignored. -/
theorem collector_stops_at_first_build_finished {A : Type}
    (pre post : List (ReadResult A)) (s : Bool)
    (h : ∀ r ∈ pre, continuing r = true) :
    collectLoop (pre ++ ReadResult.ok (ParseResult.ok
        (CargoMsg.buildFinished s)) :: post) [] =
      .done (artifactsOf pre) := by
  rw [collectLoop_append_of_continuing pre _ [] h]
  rfl

/-- Witness for C4: the stream from the spec example,
`[ArtifactProduced(A), DiagnosticMessage, ArtifactProduced(B),
BuildFinished(success), ArtifactProduced(C)]` yields `[A, B]`. -/
theorem collector_stops_at_first_build_finished_witness :
    collectLoop
      [ReadResult.ok (ParseResult.ok (CargoMsg.compilerArtifact 0)),
       ReadResult.ok (ParseResult.ok CargoMsg.compilerMessage),
       ReadResult.ok (ParseResult.ok (CargoMsg.compilerArtifact 1)),
       ReadResult.ok (ParseResult.ok (CargoMsg.buildFinished true)),
       ReadResult.ok (ParseResult.ok (CargoMsg.compilerArtifact 2))]
      ([] : List Nat) = .done [0, 1] := by
  have := collector_stops_at_first_build_finished (A := Nat)
    [ReadResult.ok (ParseResult.ok (CargoMsg.compilerArtifact 0)),
     ReadResult.ok (ParseResult.ok CargoMsg.compilerMessage),
     ReadResult.ok (ParseResult.ok (CargoMsg.compilerArtifact 1))]
    [ReadResult.ok (ParseResult.ok (CargoMsg.compilerArtifact 2))]
    true (by decide)
  simpa [artifactsOf] using this

/-- C5: on a read error or an unparseable line (which also covers the
empty read: the empty line fails to deserialize), the collector task
stops and completes with the artifacts collected so far; its result type
has no error outcome, so nothing is raised to the caller. -/
theorem collector_absorbs_stream_failures {A : Type}
    (pre post : List (ReadResult A)) (b : ReadResult A)
    (h : ∀ r ∈ pre, continuing r = true)
    (hb : b = ReadResult.err ∨ b = ReadResult.ok ParseResult.err) :
    collectLoop (pre ++ b :: post) [] = .done (artifactsOf pre) := by
  rw [collectLoop_append_of_continuing pre _ [] h]
  rcases hb with hb | hb <;> rw [hb] <;> rfl

/-- Witness for C5: a malformed line and a read error, each after one
artifact. -/
theorem collector_absorbs_stream_failures_witness :
    collectLoop
      [ReadResult.ok (ParseResult.ok (CargoMsg.compilerArtifact 7)),
       ReadResult.ok ParseResult.err,
       ReadResult.ok (ParseResult.ok (CargoMsg.buildFinished true))]
      ([] : List Nat) = .done [7] ∧
    collectLoop
      [ReadResult.ok (ParseResult.ok (CargoMsg.compilerArtifact 7)),
       ReadResult.err]
      ([] : List Nat) = .done [7] := by
  constructor
  · have := collector_absorbs_stream_failures (A := Nat)
      [ReadResult.ok (ParseResult.ok (CargoMsg.compilerArtifact 7))]
      [ReadResult.ok (ParseResult.ok (CargoMsg.buildFinished true))]
      (ReadResult.ok ParseResult.err) (by decide) (Or.inr rfl)
    simpa [artifactsOf] using this
  · have := collector_absorbs_stream_failures (A := Nat)
      [ReadResult.ok (ParseResult.ok (CargoMsg.compilerArtifact 7))]
      [] ReadResult.err (by decide) (Or.inl rfl)
    simpa [artifactsOf] using this

/-- C10: whenever the spawn succeeds, the `unwrap` of the taken stdout
handle cannot panic, because the command configures piped stdout before
spawning; `spawn_cargo_parsed` never reaches the panic outcome. -/
theorem stdout_unwrap_never_panics {A : Type} (spawnOk : Bool)
    (stream : List (ReadResult A)) :
    spawn_cargo_parsed spawnOk stream ≠ SpawnCargoResult.panicked := by
  cases spawnOk <;> simp [spawn_cargo_parsed, spawnChild]
